import Mathlib

/-!
Verification of the wakebot adaptive rate-limited scheduler against its
natural-language specification.  Python floats are modelled as rationals,
Python ints as `Int`/`Nat`, and the mutable limiter / cache / storage state
as explicit state-passing functions.  Each definition is a shallow embedding
of the function of the same name in `src/wakebot/`.
-/

namespace Wakebot

/-! ### Budget allocator (src/wakebot/main.py, run_once lines 181-196) -/

/-- Shallow embedding of the per-cycle OHLCV budget computation in
`run_once` (`main.py` lines 181-196).  `totalBudget` stands for
`int(cfg.cmc_calls_per_min * (cfg.loop_seconds / 60.0))`, `spentSoFar` for
`int(http.get_cycle_requests() + http.get_cycle_penalty())`, and
`gtReserve` is `3` when the GeckoTerminal fallback is enabled, else `0`. -/
def computeOhlcvBudget (totalBudget discoveryCost spentSoFar safetyBudget : ℤ)
    (allowGtFallback : Bool) (minOhlcvProbes maxOhlcvProbesCap : ℤ) : ℤ :=
  let gtReserve : ℤ := if allowGtFallback then 3 else 0
  let baseAvailable := max 0 (totalBudget - discoveryCost - safetyBudget - gtReserve)
  let availableForOhlcv := max 0 (baseAvailable - spentSoFar)
  let ohlcvBudget := min availableForOhlcv maxOhlcvProbesCap
  if availableForOhlcv > 0 then max minOhlcvProbes ohlcvBudget else 0

/-! ### Alert predicates (src/wakebot/alerts.py) -/

/-- Shallow embedding of `should_alert` (`alerts.py` lines 52-53):
`vol1h > 0.0 and prev48h > 0.0 and (vol1h > prev48h * float(ratio_min))`. -/
def should_alert (vol1h prev48h ratio_min : ℚ) : Bool :=
  decide (vol1h > 0) && decide (prev48h > 0) && decide (vol1h > prev48h * ratio_min)

/-- The slice of `Config` consumed by the CMC revival alert predicate. -/
structure AlertCfg where
  min_prev24_usd : ℚ
  alert_ratio_min : ℚ
deriving DecidableEq, Repr

/-- Shallow embedding of `should_alert_revival_cmc` (`alerts.py` lines 183-188):
reject when `ok_age` is false or `prev24h < cfg.min_prev24_usd`, otherwise
alert iff `vol1h > prev24h * cfg.alert_ratio_min`. -/
def should_alert_revival_cmc (vol1h prev24h : ℚ) (ok_age : Bool) (cfg : AlertCfg) : Bool :=
  if !ok_age then false
  else if !(decide (prev24h ≥ cfg.min_prev24_usd)) then false
  else decide (vol1h > prev24h * cfg.alert_ratio_min)

/-! ### Adaptive rate limiter (src/wakebot/rate_limit.py)

Floats are modelled as rationals, `time.monotonic()` instants as rational
parameters passed to every operation, the `deque(maxlen=window)` as a list
holding the most recent element last.  The concurrency semaphore touches no
field of the modelled state (`acquire`/`release` only gate thread entry), so
it does not appear in `LimiterState`. -/

/-- Structure `AdaptiveParams` from `rate_limit.py` lines 10-18. -/
structure AdaptiveParams where
  base_rps : ℚ
  min_rps : ℚ
  backoff_threshold : ℚ
  recover_threshold : ℚ
  decrease_step : ℚ
  increase_step : ℚ
  window : ℕ
deriving DecidableEq, Repr

/-- The mutable fields of `ApiRateLimiter` relevant to rate/token invariants. -/
structure LimiterState where
  effective_rps : ℚ
  capacity : ℚ
  tokens : ℚ
  last_refill : ℚ
  codes : List ℤ
deriving DecidableEq, Repr

/-- Constructor `ApiRateLimiter.__init__` (`rate_limit.py` lines 32-49): the rate starts
at `max(min_rps, base_rps)`, capacity and tokens start at that rate, the
status window starts empty. -/
def initLimiter (p : AdaptiveParams) (now : ℚ) : LimiterState :=
  let eff := max p.min_rps p.base_rps
  { effective_rps := eff, capacity := eff, tokens := eff,
    last_refill := now, codes := [] }

/-- Method `ApiRateLimiter._refill` (`rate_limit.py` lines 52-59). -/
def refillTokens (now : ℚ) (s : LimiterState) : LimiterState :=
  let elapsed := now - s.last_refill
  if elapsed ≤ 0 then s
  else { s with
    tokens := min s.capacity (s.tokens + s.effective_rps * elapsed),
    last_refill := now }

/-- Method `ApiRateLimiter._remove_token_if_available` (`rate_limit.py` lines 61-66):
refill, then consume one token when at least one is available.  Returns the
new state and whether a token was consumed (one iteration of the `acquire`
loop's token math). -/
def removeTokenIfAvailable (now : ℚ) (s : LimiterState) : LimiterState × Bool :=
  let s := refillTokens now s
  if s.tokens ≥ 1 then ({ s with tokens := s.tokens - 1 }, true) else (s, false)

/-- Appending to a `deque(maxlen := maxlen)`: the oldest entries are dropped
so that at most `maxlen` remain. -/
def dequeAppend (maxlen : ℕ) (codes : List ℤ) (c : ℤ) : List ℤ :=
  let l := codes ++ [c]
  l.drop (l.length - maxlen)

/-- Count `sum(1 for c in self._codes if c == 429)`. -/
def count429 (codes : List ℤ) : ℕ :=
  (codes.filter (fun c => decide (c = 429))).length

/-- Ratio `too_many / float(total) if total else 0.0`. -/
def ratio429 (codes : List ℤ) : ℚ :=
  if codes.length = 0 then 0 else (count429 codes : ℚ) / (codes.length : ℚ)

/-- Method `ApiRateLimiter.record_status` (`rate_limit.py` lines 97-122): append the
status to the rolling window; once the window is full, compute the 429 ratio
and either decrease the rate to `max(min_rps, min(old, base_rps * (1 −
decrease_step)))` (applied only when strictly below `old`) or recover toward
`base_rps` by an additive `base_rps * increase_step` step.  Any rate change
also sets `capacity` to the new rate; `tokens` is never touched here. -/
def recordStatus (p : AdaptiveParams) (status : ℤ) (s : LimiterState) : LimiterState :=
  let codes := dequeAppend p.window s.codes status
  if codes.length < p.window then { s with codes := codes }
  else
    let ratio := ratio429 codes
    let old := s.effective_rps
    if ratio > p.backoff_threshold then
      let target := max p.min_rps (p.base_rps * (1 - p.decrease_step))
      let new_rate := max p.min_rps (min old target)
      if new_rate < old then
        { s with codes := codes, effective_rps := new_rate, capacity := new_rate }
      else { s with codes := codes }
    else if ratio ≤ p.recover_threshold ∧ old < p.base_rps then
      let target := min p.base_rps (old + p.base_rps * p.increase_step)
      if target > old then
        { s with codes := codes, effective_rps := target, capacity := target }
      else { s with codes := codes }
    else { s with codes := codes }

/-- The limiter state invariant actually maintained by the code (the spec's
data-model invariant, amended): the rate stays within `[min_rps, base_rps]`,
`capacity` always tracks `effective_rps`, and `tokens` is bounded by
`base_rps` — but not by `capacity`, which `record_status` can lower below the
stored token count (see claim C2). -/
def LimiterInv (p : AdaptiveParams) (s : LimiterState) : Prop :=
  p.min_rps ≤ s.effective_rps ∧ s.effective_rps ≤ p.base_rps ∧
  s.capacity = s.effective_rps ∧ s.tokens ≤ p.base_rps

/-- States reachable from construction by any interleaving of refills,
acquire attempts and status recordings at arbitrary clock instants
(`release` only touches the semaphore and is the identity on this state). -/
inductive Reachable (p : AdaptiveParams) : LimiterState → Prop
  | init (now : ℚ) : Reachable p (initLimiter p now)
  | refill {s : LimiterState} (now : ℚ) :
      Reachable p s → Reachable p (refillTokens now s)
  | acquire {s : LimiterState} (now : ℚ) :
      Reachable p s → Reachable p (removeTokenIfAvailable now s).1
  | record {s : LimiterState} (status : ℤ) :
      Reachable p s → Reachable p (recordStatus p status s)

/-! ### Per-pool probe/alert worker (src/wakebot/main.py, run_once._work) -/

/-- The `(vol1h, prev24h, ok_age)` triple `_work` obtains from
`fetch_cmc_ohlcv_25h` (the `source` tag is irrelevant to alerting). -/
structure ProbeOutcome where
  vol1h : ℚ
  prev24h : ℚ
  ok_age : Bool
deriving DecidableEq, Repr

/-- The persisted storage touched by `_work` for a single pool, plus the
number of notifications handed to `notifier.send`. -/
structure WorkStorage where
  last_alert_ts : Option ℤ
  seen : List (String × String)
  notifications : ℕ
deriving DecidableEq, Repr

/-- Shallow embedding of `run_once._work` (`main.py` lines 246-268) for one
pool under a fixed clock `now` (POSIX seconds): check the cooldown
(`if last:` — a stored timestamp of `0` is falsy in Python and is modelled
faithfully), otherwise probe, mark the pool seen regardless of outcome,
evaluate `should_alert_revival_cmc`, and on success send the notification and
then persist `last_alert_ts = now`. -/
def runWork (cooldown_min : ℤ) (cfg : AlertCfg) (chain pool : String)
    (probe : ProbeOutcome) (now : ℤ) (st : WorkStorage) : WorkStorage × Bool :=
  let inCooldown :=
    match st.last_alert_ts with
    | some last => decide (last ≠ 0) && decide (now - last < 60 * cooldown_min)
    | none => false
  if inCooldown then (st, false)
  else
    let st1 := { st with seen := (chain, pool) :: st.seen }
    if !(should_alert_revival_cmc probe.vol1h probe.prev24h probe.ok_age cfg) then
      (st1, false)
    else
      ({ st1 with last_alert_ts := some now,
                  notifications := st1.notifications + 1 }, true)

/-! ### Candidate selection (src/wakebot/main.py lines 202-219,
discovery.py lines 468-474) -/

/-- The candidate record fields consumed by selection. -/
structure Cand where
  chain : String
  pool : String
  liquidity : ℚ
  tx24h : ℤ
deriving DecidableEq, Repr

/-- The sort key `(float(m.get("liquidity", 0.0)), int(m.get("tx24h", 0)))`
as a lexicographic pair. -/
def candKey (m : Cand) : ℚ ×ₗ ℤ := toLex (m.liquidity, m.tx24h)

/-- One step of a stable descending insertion sort by `candKey`, modelling
`candidates.sort(key=..., reverse=True)` (which sorts descending by the
key). -/
def insertDesc (a : Cand) : List Cand → List Cand
  | [] => [a]
  | b :: bs => if candKey b < candKey a then a :: b :: bs else b :: insertDesc a bs

/-- Stable descending sort by `(liquidity, tx24h)`. -/
def sortByKeyDesc (l : List Cand) : List Cand := l.foldr insertDesc []

/-- Shallow embedding of the candidate selection in `run_once`
(`main.py` lines 202-219): drop candidates whose pool is in the recently-seen
set of their chain, sort descending by `(liquidity, tx24h)`, and truncate to
the budget (empty when the budget is not positive). -/
def selectCandidates (aggregated : List Cand) (recentlySeen : String → List String)
    (budget : ℤ) : List Cand :=
  let candidates := aggregated.filter (fun m => !(decide (m.pool ∈ recentlySeen m.chain)))
  let sorted := sortByKeyDesc candidates
  if budget > 0 then sorted.take budget.toNat else []

/-- The final per-source de-duplication of `cmc_discover_by_source`
(`discovery.py` lines 468-474): keep the first occurrence of each non-empty
pool id. -/
def dedupByPoolAux (seenIds : List String) : List Cand → List Cand
  | [] => []
  | it :: rest =>
    if it.pool = "" ∨ it.pool ∈ seenIds then dedupByPoolAux seenIds rest
    else it :: dedupByPoolAux (it.pool :: seenIds) rest

/-- Run `dedup[pid] = it if pid and pid not in dedup` over a whole list. -/
def dedupByPool (l : List Cand) : List Cand := dedupByPoolAux [] l

/-! ### Progress cursors (src/wakebot/discovery.py lines 499-509,
src/wakebot/storage.py lines 132-141) -/

/-- The cursor written by `cmc_discover_candidates` after processing one
`(chain, source)` key: `storage.bump_progress(conn, chain, source,
start_page + max(1, limit))`. -/
def bumpedCursor (startPage limit : ℤ) : ℤ := startPage + max 1 limit

/-- The pages-planned accounting for one key in one cycle:
`pages_planned += int(limit)`. -/
def plannedPages (limit : ℤ) : ℤ := limit

/-- The number of pages actually requested for one key:
`range(start_page, max(start_page, 1) + max(0, limit))` has this many
elements. -/
def pagesRequested (startPage limit : ℤ) : ℤ :=
  max (max startPage 1 + max 0 limit - startPage) 0

/-- The persisted cursor of one `(chain, source)` key across cycles, where
`limits n` is the page limit configured for the key in cycle `n`. -/
def cursorAfterCycles (c0 : ℤ) (limits : ℕ → ℤ) : ℕ → ℤ
  | 0 => c0
  | n + 1 => bumpedCursor (cursorAfterCycles c0 limits n) (limits n)

/-! ### TTL caches and OHLCV fetches (src/wakebot/gecko.py, src/wakebot/cmc.py)

`GeckoCache` (`gecko.py` lines 18-43) and the module-level CMC OHLCV cache
(`cmc.py` lines 13-33) implement the same get/set logic, so the embedding is
polymorphic in the cached value.  `time.time()` instants are rationals. -/

/-- Cache key shaped as `(chain, pool)`. -/
abbrev CacheKey := String × String

/-- A TTL cache: key ↦ (insertion time, value), newest entry first. -/
abbrev TtlCache (α : Type) := List (CacheKey × (ℚ × α))

/-- Lookup of the dict entry for `key` (dicts hold at most one entry per
key; `cacheSet` maintains that the first match is the current one). -/
def cacheFind {α : Type} (key : CacheKey) (st : TtlCache α) : Option (ℚ × α) :=
  (st.find? (fun kv => decide (kv.1 = key))).map Prod.snd

/-- Method `GeckoCache.get` / `_get_cached_cmc_ohlcv`: a hit requires
`now - ts < ttl`; an expired entry is popped. -/
def cacheGet {α : Type} (ttl now : ℚ) (key : CacheKey) (st : TtlCache α) :
    Option α × TtlCache α :=
  match cacheFind key st with
  | none => (none, st)
  | some (ts, data) =>
    if now - ts < ttl then (some data, st)
    else (none, st.filter (fun kv => !(decide (kv.1 = key))))

/-- Method `GeckoCache.set` / `_set_cached_cmc_ohlcv`: store `(now, value)` under
`key`, replacing any previous entry. -/
def cacheSet {α : Type} (now : ℚ) (key : CacheKey) (v : α) (st : TtlCache α) :
    TtlCache α :=
  (key, (now, v)) :: st.filter (fun kv => !(decide (kv.1 = key)))

/-- One OHLCV candle `[ts, o, h, l, c, v]`. -/
structure Candle where
  ts : ℤ
  o : ℚ
  h : ℚ
  l : ℚ
  c : ℚ
  v : ℚ
deriving DecidableEq, Repr

/-- Shallow embedding of `fetch_ohlcv_49h` (`gecko.py` lines 46-75).
`upstream` is the already-parsed candle list of `http.gt_get_json`, with
`.error` standing for any HTTP or parsing exception raised inside the `try`
block.  Returns the value, the new cache state, and the number of upstream
HTTP requests issued (0 on cache hit, 1 otherwise). -/
def fetchOhlcv49h (ttl now : ℚ) (key : CacheKey)
    (upstream : Except Unit (List Candle)) (st : TtlCache (ℚ × ℚ)) :
    (ℚ × ℚ) × TtlCache (ℚ × ℚ) × ℕ :=
  match cacheGet ttl now key st with
  | (some v, st') => (v, st', 0)
  | (none, st') =>
    match upstream with
    | .error _ => ((0, 0), cacheSet now key ((0 : ℚ), (0 : ℚ)) st', 1)
    | .ok candles =>
      if candles.length < 2 then ((0, 0), cacheSet now key ((0 : ℚ), (0 : ℚ)) st', 1)
      else
        let vol1h := ((candles.getLast?).map (·.v)).getD 0
        let prev_window :=
          if candles.length ≥ 49 then (candles.drop (candles.length - 49)).dropLast
          else candles.dropLast
        let prev48 := (prev_window.map (·.v)).sum
        ((vol1h, prev48), cacheSet now key (vol1h, prev48) st', 1)

/-- The `(vol1h, prev24h, ok_age, source)` result of `fetch_cmc_ohlcv_25h`. -/
structure CmcResult where
  vol1h : ℚ
  prev24h : ℚ
  ok_age : Bool
  source : String
deriving DecidableEq, Repr

/-- Shallow embedding of `fetch_cmc_ohlcv_25h` (`cmc.py` lines 101-202).
`upstream` is the validated candle list, with `.error` standing for any HTTP,
parsing or validation failure; `gtFallback` is the result of
`_fallback_gt_ohlcv_25h` (which caches under a different key space and is
therefore opaque here); `nowSec` / `createdAt` are POSIX seconds, `createdAt`
the parsed `pool_created_at` (none when missing or unparseable).  Returns the
value, the new cache state, and the number of CMC upstream requests issued. -/
def fetchCmcOhlcv25h (ttl nowCache : ℚ) (key : CacheKey)
    (upstream : Except Unit (List Candle))
    (allowGtFallback : Bool) (gtFallback : CmcResult)
    (nowSec : ℤ) (createdAt : Option ℤ) (minAgeDays : ℤ)
    (st : TtlCache CmcResult) : CmcResult × TtlCache CmcResult × ℕ :=
  match cacheGet ttl nowCache key st with
  | (some v, st') => (v, st', 0)
  | (none, st') =>
    match upstream with
    | .error _ =>
      if allowGtFallback then (gtFallback, st', 1)
      else
        let val : CmcResult := ⟨0, 0, false, "CMC DEX"⟩
        (val, cacheSet nowCache key val st', 1)
    | .ok candles =>
      if candles.length < 2 then
        if allowGtFallback then (gtFallback, st', 1)
        else
          let val : CmcResult := ⟨0, 0, false, "CMC DEX"⟩
          (val, cacheSet nowCache key val st', 1)
      else
        let vol1h := ((candles.getLast?).map (·.v)).getD 0
        let prev_window :=
          if candles.length ≥ 25 then (candles.drop (candles.length - 25)).dropLast
          else candles.dropLast
        let prev24h := (prev_window.map (·.v)).sum
        let okAgeFromCreated :=
          match createdAt with
          | some cts => decide (nowSec - cts ≥ 86400 * minAgeDays)
          | none => false
        let ok_age :=
          if okAgeFromCreated then true
          else
            match candles.head? with
            | some c0 => decide (nowSec - c0.ts ≥ 86400 * minAgeDays)
            | none => false
        let val : CmcResult := ⟨vol1h, prev24h, ok_age, "CMC DEX"⟩
        (val, cacheSet nowCache key val st', 1)

end Wakebot

/-! ## Claim C1: budget non-negativity and cap -/

/-- Claim C1, counterexample: The claim quantifies over the configured min floor
and max cap as well; with `min_ohlcv_probes = 5 > max_ohlcv_probes_cap = 3`
and plenty of available budget, the computed budget is `5`, which exceeds the
cap `3`, so `ohlcv_budget ≤ max_probes_cap` fails as stated. -/
theorem C1_budget_cap_counterexample :
    Wakebot.computeOhlcvBudget 100 0 0 0 false 5 3 = 5 ∧
    ¬ (Wakebot.computeOhlcvBudget 100 0 0 0 false 5 3 ≤ 3) := by
  constructor <;> decide

/-- Claim C1, amended: Provided the configured floor and cap satisfy
`0 ≤ min_ohlcv_probes ≤ max_ohlcv_probes_cap` (true of the defaults `3 ≤ 30`),
for every combination of total budget, discovery cost, spent-so-far, safety
reserve and fallback flag — including arbitrarily large discovery cost — the
computed budget satisfies `0 ≤ ohlcv_budget ≤ max_ohlcv_probes_cap`. -/
theorem C1_budget_bounds (total discovery spent safety : ℤ) (fb : Bool)
    (floor cap : ℤ) (hfloor : 0 ≤ floor) (hcap : floor ≤ cap) :
    0 ≤ Wakebot.computeOhlcvBudget total discovery spent safety fb floor cap ∧
    Wakebot.computeOhlcvBudget total discovery spent safety fb floor cap ≤ cap := by
  unfold Wakebot.computeOhlcvBudget
  set gtReserve : ℤ := if fb then 3 else 0 with hgt
  set baseAvailable := max 0 (total - discovery - safety - gtReserve) with hbase
  set avail := max 0 (baseAvailable - spent) with havail
  by_cases h : avail > 0
  · simp only [h, if_true]
    constructor
    · exact le_trans hfloor (le_max_left _ _)
    · exact max_le hcap (le_trans (min_le_right _ _) le_rfl)
  · simp only [h, if_false]
    exact ⟨le_rfl, le_trans hfloor hcap⟩

/-- Claim C1, witness: The amended bound at the default configuration
(floor 3, cap 30) with a huge adversarial discovery cost. -/
theorem C1_budget_bounds_witness :
    (0 : ℤ) ≤ 3 ∧ (3 : ℤ) ≤ 30 ∧
    (0 ≤ Wakebot.computeOhlcvBudget 28 1000000 0 4 false 3 30 ∧
      Wakebot.computeOhlcvBudget 28 1000000 0 4 false 3 30 ≤ 30) :=
  ⟨by decide, by decide, C1_budget_bounds 28 1000000 0 4 false 3 30 (by decide) (by decide)⟩

/-! ## Claim C4: alert predicate edge cases -/

/-- Claim C4: With `ratio_min = 1.0`: `should_alert 100 99 = true`,
`should_alert 50 50 = false`, `should_alert 50.1 50 = true`,
`should_alert 0 0 = false`; and since the volume comparison is strict,
exactly-equal volumes never alert. -/
theorem C4_should_alert_edges :
    Wakebot.should_alert 100 99 1 = true ∧
    Wakebot.should_alert 50 50 1 = false ∧
    Wakebot.should_alert (501/10) 50 1 = true ∧
    Wakebot.should_alert 0 0 1 = false ∧
    ∀ v : ℚ, Wakebot.should_alert v v 1 = false := by
  refine ⟨?_, ?_, ?_, ?_, ?_⟩
  · norm_num [Wakebot.should_alert]
  · norm_num [Wakebot.should_alert]
  · norm_num [Wakebot.should_alert]
  · norm_num [Wakebot.should_alert]
  · intro v
    simp [Wakebot.should_alert, mul_one, lt_self_iff_false]

/-! ## Claim C5: zero prior volume never alerts -/

/-- Claim C5, counterexample: With `min_prev24_usd = 0` (an allowed
configuration value), `should_alert_revival_cmc 1 0 true` alerts even though
the prior-window volume is `0`, so the claim fails for
`should_alert_revival_cmc` as stated ("for every value of min_prev24_usd"). -/
theorem C5_zero_prior_counterexample :
    Wakebot.should_alert_revival_cmc 1 0 true ⟨0, 1⟩ = true := by
  norm_num [Wakebot.should_alert_revival_cmc]

/-- Claim C5, amended: Zero prior volume never alerts for the canonical
`should_alert` (for every configuration and current volume); for
`should_alert_revival_cmc` it never alerts provided `min_prev24_usd > 0`
(for every `ok_age` and current volume) — the default `min_prev24_usd = 1000`
satisfies this. -/
theorem C5_zero_prior_no_alert (v r : ℚ) (cfg : Wakebot.AlertCfg) (age : Bool)
    (hmin : 0 < cfg.min_prev24_usd) :
    Wakebot.should_alert v 0 r = false ∧
    Wakebot.should_alert_revival_cmc v 0 age cfg = false := by
  constructor
  · simp [Wakebot.should_alert]
  · unfold Wakebot.should_alert_revival_cmc
    cases age with
    | false => simp
    | true =>
      simp only [Bool.not_true, Bool.false_eq_true, if_false]
      have : ¬ ((0 : ℚ) ≥ cfg.min_prev24_usd) := not_le.mpr hmin
      simp [this]

/-- Claim C5, witness: The amended statement at `v = 5`, `ratio = 1`,
`ok_age = true`, default `min_prev24_usd = 1000`. -/
theorem C5_zero_prior_no_alert_witness :
    (0 : ℚ) < 1000 ∧
    (Wakebot.should_alert 5 0 1 = false ∧
      Wakebot.should_alert_revival_cmc 5 0 true ⟨1000, 1⟩ = false) :=
  ⟨by norm_num, C5_zero_prior_no_alert 5 1 ⟨1000, 1⟩ true (by norm_num)⟩

/-! ## Claim C8: progress cursor monotonicity and advance -/

/-- Claim C8, counterexample: with a configured page limit of `0` for a key,
the cycle requests zero pages and accounts zero planned pages, yet the cursor
still advances by `max(1, 0) = 1`, so "advances by exactly the number of
pages requested (planned)" fails as stated. -/
theorem C8_cursor_advance_counterexample :
    Wakebot.bumpedCursor 1 0 - 1 = 1 ∧ Wakebot.plannedPages 0 = 0 ∧
    Wakebot.pagesRequested 1 0 = 0 ∧ (1 : ℤ) ≠ 0 := by
  refine ⟨?_, ?_, ?_, ?_⟩ <;> decide

/-- Claim C8, amended: for every `(chain, source)` key the persisted cursor is
strictly increasing — hence monotonically non-decreasing — across cycles
regardless of how many page fetches succeeded, and whenever at least one page
is planned for the key in a cycle (`limit ≥ 1`, true of every positive
configured limit) the cursor advances by exactly the planned page count; with
`limit ≤ 0` it advances by `max(1, limit) = 1` instead. -/
theorem C8_cursor_monotone_and_advance (c0 : ℤ) (limits : ℕ → ℤ) (n : ℕ) :
    Wakebot.cursorAfterCycles c0 limits n ≤ Wakebot.cursorAfterCycles c0 limits (n + 1) ∧
    (∀ startPage limit : ℤ, 1 ≤ limit →
      Wakebot.bumpedCursor startPage limit - startPage = Wakebot.plannedPages limit) := by
  constructor
  · show Wakebot.cursorAfterCycles c0 limits n ≤
      Wakebot.bumpedCursor (Wakebot.cursorAfterCycles c0 limits n) (limits n)
    unfold Wakebot.bumpedCursor
    have h1 : (1 : ℤ) ≤ max 1 (limits n) := le_max_left _ _
    linarith
  · intro startPage limit hl
    unfold Wakebot.bumpedCursor Wakebot.plannedPages
    rw [max_eq_right hl]
    ring

/-- Claim C8, witness: the amended statement at cycle 3 of a key with constant
limit 2, and the exact-advance part at `start_page = 7`, `limit = 2`. -/
theorem C8_cursor_monotone_and_advance_witness :
    (Wakebot.cursorAfterCycles 1 (fun _ => 2) 3 ≤
      Wakebot.cursorAfterCycles 1 (fun _ => 2) 4) ∧
    (1 : ℤ) ≤ 2 ∧
    Wakebot.bumpedCursor 7 2 - 7 = Wakebot.plannedPages 2 :=
  ⟨(C8_cursor_monotone_and_advance 1 (fun _ => 2) 3).1, by decide,
    (C8_cursor_monotone_and_advance 1 (fun _ => 2) 3).2 7 2 (by decide)⟩

/-! ## Claim C6: cooldown admits exactly one notification per period -/

/-- Claim C6: under a fixed clock, for a pool whose probed window data
qualifies (`should_alert_revival_cmc` holds) and which has no prior alert
timestamp: the first invocation notifies and persists the cooldown timestamp;
a second invocation within the cooldown period notifies nothing (exactly one
notification across the two); a third invocation after the cooldown has
elapsed notifies a second time; and in general an invocation that sends no
notification never persists the cooldown timestamp. -/
theorem C6_cooldown_exactly_one (cd : ℤ) (cfg : Wakebot.AlertCfg) (chain pool : String)
    (probe : Wakebot.ProbeOutcome)
    (hq : Wakebot.should_alert_revival_cmc probe.vol1h probe.prev24h probe.ok_age cfg = true)
    (t0 t1 t2 : ℤ) (st0 : Wakebot.WorkStorage)
    (hlast : st0.last_alert_ts = none)
    (ht0 : t0 ≠ 0) (h01 : t1 - t0 < 60 * cd) (h02 : 60 * cd ≤ t2 - t0) :
    (Wakebot.runWork cd cfg chain pool probe t0 st0).2 = true ∧
    (Wakebot.runWork cd cfg chain pool probe t1
        (Wakebot.runWork cd cfg chain pool probe t0 st0).1).2 = false ∧
    (Wakebot.runWork cd cfg chain pool probe t1
        (Wakebot.runWork cd cfg chain pool probe t0 st0).1).1.notifications
      = st0.notifications + 1 ∧
    (Wakebot.runWork cd cfg chain pool probe t2
        (Wakebot.runWork cd cfg chain pool probe t1
          (Wakebot.runWork cd cfg chain pool probe t0 st0).1).1).2 = true ∧
    (Wakebot.runWork cd cfg chain pool probe t2
        (Wakebot.runWork cd cfg chain pool probe t1
          (Wakebot.runWork cd cfg chain pool probe t0 st0).1).1).1.notifications
      = st0.notifications + 2 ∧
    (Wakebot.runWork cd cfg chain pool probe t0 st0).1.last_alert_ts = some t0 ∧
    (Wakebot.runWork cd cfg chain pool probe t2
        (Wakebot.runWork cd cfg chain pool probe t1
          (Wakebot.runWork cd cfg chain pool probe t0 st0).1).1).1.last_alert_ts
      = some t2 ∧
    (∀ (now : ℤ) (st' : Wakebot.WorkStorage),
      (Wakebot.runWork cd cfg chain pool probe now st').2 = false →
      (Wakebot.runWork cd cfg chain pool probe now st').1.last_alert_ts
        = st'.last_alert_ts) := by
  have h1 : Wakebot.runWork cd cfg chain pool probe t0 st0
      = ({ st0 with seen := (chain, pool) :: st0.seen,
                    last_alert_ts := some t0,
                    notifications := st0.notifications + 1 }, true) := by
    unfold Wakebot.runWork
    rw [hlast]
    simp [hq]
  have h2 : Wakebot.runWork cd cfg chain pool probe t1
      ({ st0 with seen := (chain, pool) :: st0.seen,
                  last_alert_ts := some t0,
                  notifications := st0.notifications + 1 } : Wakebot.WorkStorage)
      = ({ st0 with seen := (chain, pool) :: st0.seen,
                    last_alert_ts := some t0,
                    notifications := st0.notifications + 1 }, false) := by
    unfold Wakebot.runWork
    simp [ht0, h01]
  have h3 : Wakebot.runWork cd cfg chain pool probe t2
      ({ st0 with seen := (chain, pool) :: st0.seen,
                  last_alert_ts := some t0,
                  notifications := st0.notifications + 1 } : Wakebot.WorkStorage)
      = ({ st0 with seen := (chain, pool) :: (chain, pool) :: st0.seen,
                    last_alert_ts := some t2,
                    notifications := st0.notifications + 2 }, true) := by
    unfold Wakebot.runWork
    have hnot : ¬ (t2 - t0 < 60 * cd) := not_lt.mpr h02
    simp [ht0, hnot, hq]
  refine ⟨?_, ?_, ?_, ?_, ?_, ?_, ?_, ?_⟩
  · rw [h1]
  · rw [h1, h2]
  · rw [h1, h2]
  · rw [h1, h2, h3]
  · rw [h1, h2, h3]
  · rw [h1]
  · rw [h1, h2, h3]
  · intro now st' hfalse
    unfold Wakebot.runWork at hfalse ⊢
    dsimp only at hfalse ⊢
    by_cases hc : (match st'.last_alert_ts with
      | some last => decide (last ≠ 0) && decide (now - last < 60 * cd)
      | none => false) = true
    · rw [if_pos hc]
    · rw [if_neg hc] at hfalse ⊢
      by_cases ha : (!Wakebot.should_alert_revival_cmc probe.vol1h probe.prev24h
          probe.ok_age cfg) = true
      · rw [if_pos ha]
      · rw [if_neg ha] at hfalse
        simp at hfalse

/-- Claim C6, witness: cooldown 30 minutes, qualifying probe
`(vol1h, prev24h, ok_age) = (10, 1, true)` with `min_prev24_usd = 1`,
`ratio_min = 1`, invocations at `t = 100, 200, 1900`. -/
theorem C6_cooldown_exactly_one_witness :
    Wakebot.should_alert_revival_cmc 10 1 true ⟨1, 1⟩ = true ∧
    (⟨none, [], 0⟩ : Wakebot.WorkStorage).last_alert_ts = none ∧
    (100 : ℤ) ≠ 0 ∧ (200 : ℤ) - 100 < 60 * 30 ∧ (60 : ℤ) * 30 ≤ 1900 - 100 ∧
    (Wakebot.runWork 30 ⟨1, 1⟩ "base" "0xPOOL" ⟨10, 1, true⟩ 100 ⟨none, [], 0⟩).2 = true :=
  ⟨by norm_num [Wakebot.should_alert_revival_cmc], rfl, by decide, by decide, by decide,
    (C6_cooldown_exactly_one 30 ⟨1, 1⟩ "base" "0xPOOL" ⟨10, 1, true⟩
      (by norm_num [Wakebot.should_alert_revival_cmc]) 100 200 1900 ⟨none, [], 0⟩ rfl
      (by decide) (by decide) (by decide)).1⟩

/-! ## Claims C2 and C3: rate limiter invariants and adaptive adjustment -/

/-- Construction establishes the limiter invariant (given sane params). -/
theorem limiterInv_init (p : Wakebot.AdaptiveParams) (hmin : p.min_rps ≤ p.base_rps)
    (now : ℚ) : Wakebot.LimiterInv p (Wakebot.initLimiter p now) := by
  unfold Wakebot.LimiterInv Wakebot.initLimiter
  exact ⟨le_max_left _ _, max_le hmin le_rfl, rfl, max_le hmin le_rfl⟩

/-- Refilling preserves the limiter invariant. -/
theorem limiterInv_refill (p : Wakebot.AdaptiveParams) (now : ℚ)
    (s : Wakebot.LimiterState) (h : Wakebot.LimiterInv p s) :
    Wakebot.LimiterInv p (Wakebot.refillTokens now s) := by
  obtain ⟨h1, h2, h3, h4⟩ := h
  unfold Wakebot.LimiterInv Wakebot.refillTokens
  dsimp only
  split_ifs with he
  · exact ⟨h1, h2, h3, h4⟩
  · exact ⟨h1, h2, h3, le_trans (min_le_left _ _) (h3.le.trans h2)⟩

/-- One acquire-loop iteration preserves the limiter invariant. -/
theorem limiterInv_acquire (p : Wakebot.AdaptiveParams) (now : ℚ)
    (s : Wakebot.LimiterState) (h : Wakebot.LimiterInv p s) :
    Wakebot.LimiterInv p (Wakebot.removeTokenIfAvailable now s).1 := by
  obtain ⟨h1, h2, h3, h4⟩ := limiterInv_refill p now s h
  unfold Wakebot.removeTokenIfAvailable
  dsimp only
  split_ifs with ht
  · exact ⟨h1, h2, h3, by dsimp only; linarith⟩
  · exact ⟨h1, h2, h3, h4⟩

/-- Recording a status preserves the limiter invariant. -/
theorem limiterInv_record (p : Wakebot.AdaptiveParams) (hmin : p.min_rps ≤ p.base_rps)
    (status : ℤ) (s : Wakebot.LimiterState) (h : Wakebot.LimiterInv p s) :
    Wakebot.LimiterInv p (Wakebot.recordStatus p status s) := by
  obtain ⟨h1, h2, h3, h4⟩ := h
  unfold Wakebot.LimiterInv Wakebot.recordStatus
  dsimp only
  split_ifs with hlen hb hnr hrc htg
  · exact ⟨h1, h2, h3, h4⟩
  · exact ⟨le_max_left _ _, max_le hmin (le_trans (min_le_left _ _) h2), rfl, h4⟩
  · exact ⟨h1, h2, h3, h4⟩
  · exact ⟨le_trans h1 (le_of_lt htg), min_le_left _ _, rfl, h4⟩
  · exact ⟨h1, h2, h3, h4⟩
  · exact ⟨h1, h2, h3, h4⟩

/-- Every reachable limiter state satisfies the invariant. -/
theorem limiterInv_reachable (p : Wakebot.AdaptiveParams)
    (hmin : p.min_rps ≤ p.base_rps) {s : Wakebot.LimiterState}
    (hs : Wakebot.Reachable p s) : Wakebot.LimiterInv p s := by
  induction hs with
  | init now => exact limiterInv_init p hmin now
  | refill now _ ih => exact limiterInv_refill p _ _ ih
  | acquire now _ ih => exact limiterInv_acquire p _ _ ih
  | record status _ ih => exact limiterInv_record p hmin _ _ ih

/-- Claim C2, counterexample: with `base_rps = 8`, `min_rps = 1`,
`decrease_step = 1/4`, `window = 1`, a single `record_status(429)` on a fresh
limiter lowers `effective_rps` and `capacity` to `6` but leaves `tokens = 8`,
so `tokens ≤ capacity` does not hold immediately after `record_status` — the
code clamps `capacity` but does not re-clamp the stored token count. -/
theorem C2_tokens_exceed_capacity_counterexample :
    (Wakebot.recordStatus ⟨8, 1, 3/10, 1/10, 1/4, 1/10, 1⟩ 429
        (Wakebot.initLimiter ⟨8, 1, 3/10, 1/10, 1/4, 1/10, 1⟩ 0)).capacity
      < (Wakebot.recordStatus ⟨8, 1, 3/10, 1/10, 1/4, 1/10, 1⟩ 429
        (Wakebot.initLimiter ⟨8, 1, 3/10, 1/10, 1/4, 1/10, 1⟩ 0)).tokens := by
  norm_num [Wakebot.recordStatus, Wakebot.initLimiter, Wakebot.dequeAppend,
    Wakebot.ratio429, Wakebot.count429, max_def, min_def]

/-- Claim C2, amended: provided `min_rps ≤ base_rps` (the code sets the
initial rate to `max(min_rps, base_rps)`, so with `min_rps > base_rps` even
the bound `effective_rate ≤ base_rate` fails at construction), every state
reachable by any sequence of construction, acquire, release, refill and
record_status operations satisfies `min_rps ≤ effective_rps ≤ base_rps`,
`capacity = effective_rps` and `tokens ≤ base_rps`; `tokens ≤ capacity` is
not an invariant of `record_status` (see the counterexample) but is restored
by the next refill with positive elapsed time. -/
theorem C2_limiter_invariants (p : Wakebot.AdaptiveParams)
    (hmin : p.min_rps ≤ p.base_rps) :
    (∀ s : Wakebot.LimiterState, Wakebot.Reachable p s →
      p.min_rps ≤ s.effective_rps ∧ s.effective_rps ≤ p.base_rps ∧
      s.capacity = s.effective_rps ∧ s.tokens ≤ p.base_rps) ∧
    (∀ (s : Wakebot.LimiterState) (now : ℚ), s.last_refill < now →
      (Wakebot.refillTokens now s).tokens ≤ (Wakebot.refillTokens now s).capacity) := by
  constructor
  · intro s hs
    exact limiterInv_reachable p hmin hs
  · intro s now hlt
    unfold Wakebot.refillTokens
    have hne : ¬ (now - s.last_refill ≤ 0) := by linarith
    rw [if_neg hne]
    exact min_le_left _ _

/-- Claim C2, witness: the invariant at a freshly constructed limiter with
the CMC parameters, and the refill re-clamp one time unit later. -/
theorem C2_limiter_invariants_witness :
    ((⟨8, 1, 3/10, 1/10, 1/4, 1/10, 60⟩ : Wakebot.AdaptiveParams).min_rps
        ≤ (⟨8, 1, 3/10, 1/10, 1/4, 1/10, 60⟩ : Wakebot.AdaptiveParams).base_rps) ∧
    ((Wakebot.initLimiter ⟨8, 1, 3/10, 1/10, 1/4, 1/10, 60⟩ 0).tokens ≤ (8 : ℚ)) ∧
    ((Wakebot.initLimiter ⟨8, 1, 3/10, 1/10, 1/4, 1/10, 60⟩ 0).last_refill < 1) ∧
    ((Wakebot.refillTokens 1 (Wakebot.initLimiter ⟨8, 1, 3/10, 1/10, 1/4, 1/10, 60⟩ 0)).tokens
      ≤ (Wakebot.refillTokens 1 (Wakebot.initLimiter ⟨8, 1, 3/10, 1/10, 1/4, 1/10, 60⟩ 0)).capacity) :=
  ⟨by norm_num,
   ((C2_limiter_invariants ⟨8, 1, 3/10, 1/10, 1/4, 1/10, 60⟩ (by norm_num)).1
      _ (Wakebot.Reachable.init 0)).2.2.2,
   by norm_num [Wakebot.initLimiter],
   (C2_limiter_invariants ⟨8, 1, 3/10, 1/10, 1/4, 1/10, 60⟩ (by norm_num)).2
      _ 1 (by norm_num [Wakebot.initLimiter])⟩

/-- Order fact used for the decrease branch: with `a ≤ b`,
`max a (min b (max a c)) = max a (min b c)`. -/
theorem max_min_max_collapse (a b c : ℚ) (hab : a ≤ b) :
    max a (min b (max a c)) = max a (min b c) := by
  simp only [max_def, min_def]
  split_ifs <;> linarith

/-- Order fact: with `a ≤ b`, `max a (min b c) ≤ b`. -/
theorem max_min_le_self (a b c : ℚ) (hab : a ≤ b) : max a (min b c) ≤ b := by
  simp only [max_def, min_def]
  split_ifs <;> linarith

/-- Order fact: with `a ≤ b`, `max a (min b c) < b ↔ max a c < b`. -/
theorem max_min_lt_iff (a b c : ℚ) (hab : a ≤ b) :
    max a (min b c) < b ↔ max a c < b := by
  simp only [max_def, min_def]
  split_ifs <;> constructor <;> intro h <;> linarith

/-- Claim C3, counterexample: with `base_rps = 8`, `min_rps = 1`,
`decrease_step = 1/4`, `window = 1`, a first over-threshold window lowers the
rate to `6 = base_rps * (1 - decrease_step)`; a second over-threshold window
leaves it at `6` — not the claimed strict decrease to
`max(min_rate, 6 * (1 - 1/4)) = 9/2` — because the code decreases toward
`base_rps * (1 - decrease_step)`, not `effective_rate * (1 - decrease_step)`. -/
theorem C3_decrease_formula_counterexample :
    (Wakebot.recordStatus ⟨8, 1, 3/10, 1/10, 1/4, 1/10, 1⟩ 429
        (Wakebot.recordStatus ⟨8, 1, 3/10, 1/10, 1/4, 1/10, 1⟩ 429
          (Wakebot.initLimiter ⟨8, 1, 3/10, 1/10, 1/4, 1/10, 1⟩ 0))).effective_rps = 6 ∧
    (Wakebot.recordStatus ⟨8, 1, 3/10, 1/10, 1/4, 1/10, 1⟩ 429
        (Wakebot.initLimiter ⟨8, 1, 3/10, 1/10, 1/4, 1/10, 1⟩ 0)).effective_rps = 6 ∧
    ¬ ((Wakebot.recordStatus ⟨8, 1, 3/10, 1/10, 1/4, 1/10, 1⟩ 429
        (Wakebot.recordStatus ⟨8, 1, 3/10, 1/10, 1/4, 1/10, 1⟩ 429
          (Wakebot.initLimiter ⟨8, 1, 3/10, 1/10, 1/4, 1/10, 1⟩ 0))).effective_rps
      < (Wakebot.recordStatus ⟨8, 1, 3/10, 1/10, 1/4, 1/10, 1⟩ 429
        (Wakebot.initLimiter ⟨8, 1, 3/10, 1/10, 1/4, 1/10, 1⟩ 0)).effective_rps) ∧
    (Wakebot.recordStatus ⟨8, 1, 3/10, 1/10, 1/4, 1/10, 1⟩ 429
        (Wakebot.recordStatus ⟨8, 1, 3/10, 1/10, 1/4, 1/10, 1⟩ 429
          (Wakebot.initLimiter ⟨8, 1, 3/10, 1/10, 1/4, 1/10, 1⟩ 0))).effective_rps
      ≠ max 1 (6 * (1 - 1/4)) := by
  have h1 : Wakebot.recordStatus ⟨8, 1, 3/10, 1/10, 1/4, 1/10, 1⟩ 429
      (Wakebot.initLimiter ⟨8, 1, 3/10, 1/10, 1/4, 1/10, 1⟩ 0)
      = { effective_rps := 6, capacity := 6, tokens := 8, last_refill := 0,
          codes := [429] } := by
    norm_num [Wakebot.recordStatus, Wakebot.initLimiter, Wakebot.dequeAppend,
      Wakebot.ratio429, Wakebot.count429, max_def, min_def]
  have h2 : Wakebot.recordStatus ⟨8, 1, 3/10, 1/10, 1/4, 1/10, 1⟩ 429
      ({ effective_rps := 6, capacity := 6, tokens := 8, last_refill := 0,
          codes := [429] } : Wakebot.LimiterState)
      = { effective_rps := 6, capacity := 6, tokens := 8, last_refill := 0,
          codes := [429] } := by
    norm_num [Wakebot.recordStatus, Wakebot.dequeAppend,
      Wakebot.ratio429, Wakebot.count429, max_def, min_def]
  rw [h1, h2]
  norm_num [max_def]

/-- Claim C3, amended: for any reachable limiter state (with
`min_rps ≤ base_rps` and `recover_threshold ≤ backoff_threshold`, as in the
shipped configuration), when the status window is full and its 429 ratio
exceeds `backoff_threshold`, `record_status` sets the rate to
`max(min_rps, min(effective_rate, base_rps * (1 - decrease_step)))` — a
strict decrease exactly when the old rate exceeds
`max(min_rps, base_rps * (1 - decrease_step))`; when a full window's ratio is
at most `recover_threshold` and the rate is below `base_rps`, `record_status`
never decreases the rate and never raises it above `base_rps`. -/
theorem C3_record_status_adjust (p : Wakebot.AdaptiveParams)
    (hmin : p.min_rps ≤ p.base_rps)
    (hrt : p.recover_threshold ≤ p.backoff_threshold)
    {s : Wakebot.LimiterState} (hs : Wakebot.Reachable p s) (status : ℤ)
    (hfull : p.window ≤ s.codes.length + 1) :
    (Wakebot.ratio429 (Wakebot.dequeAppend p.window s.codes status) > p.backoff_threshold →
      (Wakebot.recordStatus p status s).effective_rps
          = max p.min_rps (min s.effective_rps (p.base_rps * (1 - p.decrease_step))) ∧
        ((Wakebot.recordStatus p status s).effective_rps < s.effective_rps ↔
          max p.min_rps (p.base_rps * (1 - p.decrease_step)) < s.effective_rps)) ∧
    (Wakebot.ratio429 (Wakebot.dequeAppend p.window s.codes status) ≤ p.recover_threshold →
      s.effective_rps < p.base_rps →
        s.effective_rps ≤ (Wakebot.recordStatus p status s).effective_rps ∧
        (Wakebot.recordStatus p status s).effective_rps ≤ p.base_rps) := by
  obtain ⟨h1, h2, h3, h4⟩ := limiterInv_reachable p hmin hs
  have hlen : ¬ ((Wakebot.dequeAppend p.window s.codes status).length < p.window) := by
    unfold Wakebot.dequeAppend
    dsimp only
    rw [List.length_drop, List.length_append]
    simp only [List.length_singleton]
    omega
  unfold Wakebot.recordStatus
  dsimp only
  rw [if_neg hlen]
  constructor
  · intro hb
    rw [if_pos hb]
    have heq := max_min_max_collapse p.min_rps s.effective_rps
      (p.base_rps * (1 - p.decrease_step)) h1
    have hle := max_min_le_self p.min_rps s.effective_rps
      (p.base_rps * (1 - p.decrease_step)) h1
    have hiff := max_min_lt_iff p.min_rps s.effective_rps
      (p.base_rps * (1 - p.decrease_step)) h1
    split_ifs with hnr
    · dsimp only
      exact ⟨heq, heq ▸ hiff⟩
    · dsimp only
      rw [heq] at hnr
      have hMeq : max p.min_rps (min s.effective_rps (p.base_rps * (1 - p.decrease_step)))
          = s.effective_rps := le_antisymm hle (not_lt.mp hnr)
      refine ⟨hMeq.symm, ?_⟩
      rw [← hiff, hMeq]
  · intro hr hold
    have hnb : ¬ (Wakebot.ratio429 (Wakebot.dequeAppend p.window s.codes status)
        > p.backoff_threshold) := not_lt.mpr (le_trans hr hrt)
    rw [if_neg hnb]
    rw [if_pos (⟨hr, hold⟩ : Wakebot.ratio429 (Wakebot.dequeAppend p.window s.codes status)
        ≤ p.recover_threshold ∧ s.effective_rps < p.base_rps)]
    split_ifs with htg
    · exact ⟨le_of_lt htg, min_le_left _ _⟩
    · exact ⟨le_rfl, le_of_lt hold⟩

/-- Claim C3, witness: the amended statement at a fresh limiter with
`base_rps = 8`, `min_rps = 1`, thresholds `3/10` and `1/10`, `window = 1`,
recording a `429`. -/
theorem C3_record_status_adjust_witness :
    ((1 : ℚ) ≤ 8) ∧ ((1 : ℚ)/10 ≤ 3/10) ∧
    ((⟨8, 1, 3/10, 1/10, 1/4, 1/10, 1⟩ : Wakebot.AdaptiveParams).window
      ≤ (Wakebot.initLimiter ⟨8, 1, 3/10, 1/10, 1/4, 1/10, 1⟩ 0).codes.length + 1) ∧
    (Wakebot.ratio429 (Wakebot.dequeAppend 1
        (Wakebot.initLimiter ⟨8, 1, 3/10, 1/10, 1/4, 1/10, 1⟩ 0).codes 429) > 3/10 →
      (Wakebot.recordStatus ⟨8, 1, 3/10, 1/10, 1/4, 1/10, 1⟩ 429
        (Wakebot.initLimiter ⟨8, 1, 3/10, 1/10, 1/4, 1/10, 1⟩ 0)).effective_rps
        = max 1 (min (Wakebot.initLimiter ⟨8, 1, 3/10, 1/10, 1/4, 1/10, 1⟩ 0).effective_rps
            (8 * (1 - 1/4))) ∧
      ((Wakebot.recordStatus ⟨8, 1, 3/10, 1/10, 1/4, 1/10, 1⟩ 429
          (Wakebot.initLimiter ⟨8, 1, 3/10, 1/10, 1/4, 1/10, 1⟩ 0)).effective_rps
          < (Wakebot.initLimiter ⟨8, 1, 3/10, 1/10, 1/4, 1/10, 1⟩ 0).effective_rps ↔
        max 1 (8 * (1 - 1/4))
          < (Wakebot.initLimiter ⟨8, 1, 3/10, 1/10, 1/4, 1/10, 1⟩ 0).effective_rps)) :=
  ⟨by norm_num, by norm_num,
   by norm_num [Wakebot.initLimiter],
   (C3_record_status_adjust ⟨8, 1, 3/10, 1/10, 1/4, 1/10, 1⟩ (by norm_num) (by norm_num)
      (Wakebot.Reachable.init 0) 429 (by norm_num [Wakebot.initLimiter])).1⟩

/-! ## Claim C7: candidate selection -/

/-- Membership through one insertion step of the descending sort. -/
theorem mem_insertDesc (a x : Wakebot.Cand) (l : List Wakebot.Cand) :
    x ∈ Wakebot.insertDesc a l ↔ x = a ∨ x ∈ l := by
  induction l with
  | nil => simp [Wakebot.insertDesc]
  | cons b bs ih =>
    unfold Wakebot.insertDesc
    split_ifs with hlt
    · simp
    · simp only [List.mem_cons, ih]
      tauto

/-- Inserting into a descending-sorted list keeps it descending-sorted. -/
theorem sorted_insertDesc (a : Wakebot.Cand) (l : List Wakebot.Cand)
    (h : l.Pairwise (fun x y => Wakebot.candKey y ≤ Wakebot.candKey x)) :
    (Wakebot.insertDesc a l).Pairwise
      (fun x y => Wakebot.candKey y ≤ Wakebot.candKey x) := by
  induction l with
  | nil => simp [Wakebot.insertDesc]
  | cons b bs ih =>
    rw [List.pairwise_cons] at h
    obtain ⟨hb, hbs⟩ := h
    unfold Wakebot.insertDesc
    split_ifs with hlt
    · refine List.pairwise_cons.mpr ⟨?_, List.pairwise_cons.mpr ⟨hb, hbs⟩⟩
      intro y hy
      rcases List.mem_cons.mp hy with rfl | hy'
      · exact le_of_lt hlt
      · exact le_trans (hb y hy') (le_of_lt hlt)
    · refine List.pairwise_cons.mpr ⟨?_, ih hbs⟩
      intro y hy
      rcases (mem_insertDesc a y bs).mp hy with rfl | hy'
      · exact le_of_not_lt hlt
      · exact hb y hy'

/-- The descending sort is a membership-preserving reordering. -/
theorem mem_sortByKeyDesc (x : Wakebot.Cand) (l : List Wakebot.Cand) :
    x ∈ Wakebot.sortByKeyDesc l ↔ x ∈ l := by
  induction l with
  | nil => simp [Wakebot.sortByKeyDesc]
  | cons b bs ih =>
    show x ∈ Wakebot.insertDesc b (Wakebot.sortByKeyDesc bs) ↔ _
    rw [mem_insertDesc, ih]
    simp

/-- The descending sort produces a descending-sorted list. -/
theorem sorted_sortByKeyDesc (l : List Wakebot.Cand) :
    (Wakebot.sortByKeyDesc l).Pairwise
      (fun x y => Wakebot.candKey y ≤ Wakebot.candKey x) := by
  induction l with
  | nil => simp [Wakebot.sortByKeyDesc]
  | cons b bs ih => exact sorted_insertDesc b _ ih

/-- Claim C7, counterexample: the per-source discovery output is de-duplicated
by pool id, but `run_once` aggregates multiple sources' outputs without any
cross-source re-deduplication, so a pool discovered by two sources of the
same chain in one cycle (possible whenever source rotation is off) appears
twice in the selected set — the selection does not de-dup by `(chain, pool)`. -/
theorem C7_duplicate_selection_counterexample :
    Wakebot.dedupByPool [⟨"base", "0xPOOL", 100, 5⟩] = [⟨"base", "0xPOOL", 100, 5⟩] ∧
    Wakebot.selectCandidates
        (Wakebot.dedupByPool [⟨"base", "0xPOOL", 100, 5⟩]
          ++ Wakebot.dedupByPool [⟨"base", "0xPOOL", 100, 5⟩])
        (fun _ => []) 2
      = [⟨"base", "0xPOOL", 100, 5⟩, ⟨"base", "0xPOOL", 100, 5⟩] ∧
    ¬ ([⟨"base", "0xPOOL", 100, 5⟩, ⟨"base", "0xPOOL", 100, 5⟩] :
        List Wakebot.Cand).Pairwise
        (fun a b => ¬ (a.chain = b.chain ∧ a.pool = b.pool)) := by
  refine ⟨?_, ?_, ?_⟩
  · simp [Wakebot.dedupByPool, Wakebot.dedupByPoolAux]
  · simp [Wakebot.dedupByPool, Wakebot.dedupByPoolAux, Wakebot.selectCandidates,
      Wakebot.sortByKeyDesc, Wakebot.insertDesc, lt_self_iff_false]
  · simp

/-- Claim C7, amended: for every aggregated candidate list, seen-set and
budget, the selected set contains no candidate whose pool is in the
recently-seen set of its chain, is ordered descending by
`(liquidity, tx24h)`, has size at most the budget, and is empty when the
budget is `0`; however the selection performs no `(chain, pool)`
de-duplication of its own (see the counterexample), so duplicates occur only
when per-source de-duplicated discovery outputs overlap across sources. -/
theorem C7_selection_properties (aggregated : List Wakebot.Cand)
    (recentlySeen : String → List String) (budget : ℤ) :
    (∀ m ∈ Wakebot.selectCandidates aggregated recentlySeen budget,
        m.pool ∉ recentlySeen m.chain) ∧
    (Wakebot.selectCandidates aggregated recentlySeen budget).Pairwise
      (fun x y => Wakebot.candKey y ≤ Wakebot.candKey x) ∧
    (Wakebot.selectCandidates aggregated recentlySeen budget).length ≤ budget.toNat ∧
    (budget = 0 → Wakebot.selectCandidates aggregated recentlySeen budget = []) := by
  unfold Wakebot.selectCandidates
  dsimp only
  split_ifs with hb
  · refine ⟨?_, ?_, ?_, ?_⟩
    · intro m hm
      have hm1 : m ∈ Wakebot.sortByKeyDesc
          (aggregated.filter (fun m => !(decide (m.pool ∈ recentlySeen m.chain)))) :=
        (List.take_sublist _ _).subset hm
      have hm2 := (mem_sortByKeyDesc m _).mp hm1
      have hm3 := List.mem_filter.mp hm2
      simpa using hm3.2
    · exact (sorted_sortByKeyDesc _).sublist (List.take_sublist _ _)
    · exact List.length_take_le _ _
    · intro h0
      exfalso
      omega
  · exact ⟨by simp, by simp, by simp, fun _ => rfl⟩

/-! ## Claims C9 and C10: OHLCV fetch caching and failure totality -/

/-- After a `cacheSet`, the entry for the key is the freshly stored pair. -/
theorem cacheFind_cacheSet_self {α : Type} (t0 : ℚ) (key : Wakebot.CacheKey)
    (v : α) (st : Wakebot.TtlCache α) :
    Wakebot.cacheFind key (Wakebot.cacheSet t0 key v st) = some (t0, v) := by
  unfold Wakebot.cacheFind Wakebot.cacheSet
  rw [List.find?_cons_of_pos _ (by simp)]
  rfl

/-- A `fetch_ohlcv_49h` cache miss issues one upstream request and stores the
returned value (whatever branch produced it) under the key. -/
theorem fetchOhlcv49h_miss (ttl now : ℚ) (key : Wakebot.CacheKey)
    (up : Except Unit (List Wakebot.Candle)) (st : Wakebot.TtlCache (ℚ × ℚ))
    (h : Wakebot.cacheFind key st = none) :
    ∃ val, Wakebot.fetchOhlcv49h ttl now key up st
      = (val, Wakebot.cacheSet now key val st, 1) := by
  unfold Wakebot.fetchOhlcv49h Wakebot.cacheGet
  rw [h]
  dsimp only
  cases up with
  | error e => exact ⟨(0, 0), rfl⟩
  | ok candles =>
    dsimp only
    split_ifs with hc h49
    · exact ⟨(0, 0), rfl⟩
    · exact ⟨_, rfl⟩
    · exact ⟨_, rfl⟩

/-- A `fetch_ohlcv_49h` cache hit issues no upstream request and returns the
cached value unchanged. -/
theorem fetchOhlcv49h_hit (ttl now ts : ℚ) (key : Wakebot.CacheKey)
    (val : ℚ × ℚ) (up : Except Unit (List Wakebot.Candle))
    (st : Wakebot.TtlCache (ℚ × ℚ))
    (hf : Wakebot.cacheFind key st = some (ts, val)) (ht : now - ts < ttl) :
    Wakebot.fetchOhlcv49h ttl now key up st = (val, st, 0) := by
  unfold Wakebot.fetchOhlcv49h Wakebot.cacheGet
  rw [hf]
  dsimp only
  rw [if_pos ht]

/-- Claim C9, counterexample: with the GeckoTerminal fallback enabled, a
failed first `fetch_cmc_ohlcv_25h` call (`cmc.py` lines 197-199) returns the
fallback result without caching anything under the `cmc25:` key, so a second
call for the same key within the TTL misses the cache and issues a second
upstream CMC request — two upstream requests, not the claimed exactly one. -/
theorem C9_fallback_two_requests_counterexample :
    (Wakebot.fetchCmcOhlcv25h 60 0 ("base", "0xP") (.error ()) true
        ⟨1, 2, true, "CMC→GT fallback"⟩ 0 none 7
        ([] : Wakebot.TtlCache Wakebot.CmcResult)).2.1
      = ([] : Wakebot.TtlCache Wakebot.CmcResult) ∧
    (Wakebot.fetchCmcOhlcv25h 60 0 ("base", "0xP") (.error ()) true
        ⟨1, 2, true, "CMC→GT fallback"⟩ 0 none 7
        ([] : Wakebot.TtlCache Wakebot.CmcResult)).2.2 = 1 ∧
    (Wakebot.fetchCmcOhlcv25h 60 30 ("base", "0xP") (.error ()) true
        ⟨1, 2, true, "CMC→GT fallback"⟩ 0 none 7
        ((Wakebot.fetchCmcOhlcv25h 60 0 ("base", "0xP") (.error ()) true
          ⟨1, 2, true, "CMC→GT fallback"⟩ 0 none 7
          ([] : Wakebot.TtlCache Wakebot.CmcResult)).2.1)).2.2 = 1 ∧
    (30 : ℚ) - 0 < 60 ∧ (1 + 1 : ℕ) ≠ 1 := by
  refine ⟨rfl, rfl, rfl, by norm_num, by decide⟩

/-- On any upstream failure with the GeckoTerminal fallback disabled,
`fetch_cmc_ohlcv_25h` returns the zero result and caches it. -/
theorem fetchCmcOhlcv25h_err (ttl now : ℚ) (key : Wakebot.CacheKey)
    (gtFb : Wakebot.CmcResult) (nowSec : ℤ) (created : Option ℤ) (minAge : ℤ)
    (st : Wakebot.TtlCache Wakebot.CmcResult)
    (h : Wakebot.cacheFind key st = none) :
    Wakebot.fetchCmcOhlcv25h ttl now key (.error ()) false gtFb nowSec created minAge st
      = (⟨0, 0, false, "CMC DEX"⟩,
         Wakebot.cacheSet now key (⟨0, 0, false, "CMC DEX"⟩ : Wakebot.CmcResult) st, 1) := by
  unfold Wakebot.fetchCmcOhlcv25h Wakebot.cacheGet
  rw [h]
  rfl

/-- A `fetch_cmc_ohlcv_25h` cache hit issues no upstream request and returns
the cached value unchanged. -/
theorem fetchCmcOhlcv25h_hit (ttl now ts : ℚ) (key : Wakebot.CacheKey)
    (val : Wakebot.CmcResult) (up : Except Unit (List Wakebot.Candle))
    (fb : Bool) (gtFb : Wakebot.CmcResult) (nowSec : ℤ) (created : Option ℤ)
    (minAge : ℤ) (st : Wakebot.TtlCache Wakebot.CmcResult)
    (hf : Wakebot.cacheFind key st = some (ts, val)) (ht : now - ts < ttl) :
    Wakebot.fetchCmcOhlcv25h ttl now key up fb gtFb nowSec created minAge st
      = (val, st, 0) := by
  unfold Wakebot.fetchCmcOhlcv25h Wakebot.cacheGet
  rw [hf]
  dsimp only
  rw [if_pos ht]

/-- The zero result of a failed `fetch_ohlcv_49h` is also cached. -/
theorem fetchOhlcv49h_err (ttl now : ℚ) (key : Wakebot.CacheKey)
    (st : Wakebot.TtlCache (ℚ × ℚ)) (h : Wakebot.cacheFind key st = none) :
    Wakebot.fetchOhlcv49h ttl now key (.error ()) st
      = ((0, 0), Wakebot.cacheSet now key ((0 : ℚ), (0 : ℚ)) st, 1) := by
  unfold Wakebot.fetchOhlcv49h Wakebot.cacheGet
  rw [h]

/-- Claim C10: with the GeckoTerminal fallback disabled, both OHLCV fetch
functions are total on upstream failure: they return the zero result —
`(0, 0, false, "CMC DEX")` for the CMC 25h fetch, `(0, 0)` for the
GeckoTerminal 49h fetch — store it in the TTL cache, and any later call
within the TTL is served that zero result from the cache with no upstream
request; zero volumes (and cleared `ok_age`) never satisfy the alert
predicates, so the pool cannot alert for the entire cache TTL. -/
theorem C10_error_path_zero_and_cached (ttl t0 t1 : ℚ) (key : Wakebot.CacheKey)
    (up2 upG2 : Except Unit (List Wakebot.Candle))
    (gtFb : Wakebot.CmcResult) (nowSec : ℤ) (created : Option ℤ) (minAge : ℤ)
    (st : Wakebot.TtlCache Wakebot.CmcResult) (stG : Wakebot.TtlCache (ℚ × ℚ))
    (hmiss : Wakebot.cacheFind key st = none)
    (hmissG : Wakebot.cacheFind key stG = none)
    (ht : t1 - t0 < ttl) (r : ℚ) (cfg : Wakebot.AlertCfg) :
    (Wakebot.fetchCmcOhlcv25h ttl t0 key (.error ()) false gtFb nowSec created minAge st).1
      = ⟨0, 0, false, "CMC DEX"⟩ ∧
    (Wakebot.fetchCmcOhlcv25h ttl t0 key (.error ()) false gtFb nowSec created minAge st).2.2
      = 1 ∧
    Wakebot.fetchCmcOhlcv25h ttl t1 key up2 false gtFb nowSec created minAge
        (Wakebot.fetchCmcOhlcv25h ttl t0 key (.error ()) false gtFb nowSec created minAge st).2.1
      = (⟨0, 0, false, "CMC DEX"⟩,
         (Wakebot.fetchCmcOhlcv25h ttl t0 key (.error ()) false gtFb nowSec created
            minAge st).2.1, 0) ∧
    (Wakebot.fetchOhlcv49h ttl t0 key (.error ()) stG).1 = (0, 0) ∧
    (Wakebot.fetchOhlcv49h ttl t0 key (.error ()) stG).2.2 = 1 ∧
    Wakebot.fetchOhlcv49h ttl t1 key upG2
        (Wakebot.fetchOhlcv49h ttl t0 key (.error ()) stG).2.1
      = ((0, 0), (Wakebot.fetchOhlcv49h ttl t0 key (.error ()) stG).2.1, 0) ∧
    Wakebot.should_alert 0 0 r = false ∧
    Wakebot.should_alert_revival_cmc 0 0 false cfg = false := by
  have h1 := fetchCmcOhlcv25h_err ttl t0 key gtFb nowSec created minAge st hmiss
  have hG1 := fetchOhlcv49h_err ttl t0 key stG hmissG
  have h2 := fetchCmcOhlcv25h_hit ttl t1 t0 key ⟨0, 0, false, "CMC DEX"⟩ up2 false gtFb
      nowSec created minAge
      (Wakebot.cacheSet t0 key (⟨0, 0, false, "CMC DEX"⟩ : Wakebot.CmcResult) st)
      (cacheFind_cacheSet_self t0 key _ st) ht
  have hG2 := fetchOhlcv49h_hit ttl t1 t0 key ((0 : ℚ), (0 : ℚ)) upG2
      (Wakebot.cacheSet t0 key ((0 : ℚ), (0 : ℚ)) stG)
      (cacheFind_cacheSet_self t0 key _ stG) ht
  rw [h1, hG1]
  dsimp only
  rw [h2, hG2]
  refine ⟨rfl, rfl, rfl, rfl, rfl, rfl, ?_, ?_⟩
  · simp [Wakebot.should_alert]
  · simp [Wakebot.should_alert_revival_cmc]

/-- Claim C10, witness: the failure path at `ttl = 60`, times 0 and 30, a
fresh cache, default `min_prev24_usd = 1000`, `ratio_min = 1`. -/
theorem C10_error_path_zero_and_cached_witness :
    Wakebot.cacheFind ("base", "0xP") ([] : Wakebot.TtlCache Wakebot.CmcResult) = none ∧
    Wakebot.cacheFind ("base", "0xP") ([] : Wakebot.TtlCache (ℚ × ℚ)) = none ∧
    (30 : ℚ) - 0 < 60 ∧
    (Wakebot.fetchCmcOhlcv25h 60 0 ("base", "0xP") (.error ()) false
        ⟨0, 0, false, "CMC DEX"⟩ 0 none 7
        ([] : Wakebot.TtlCache Wakebot.CmcResult)).1 = ⟨0, 0, false, "CMC DEX"⟩ :=
  ⟨rfl, rfl, by norm_num,
    (C10_error_path_zero_and_cached 60 0 30 ("base", "0xP") (.error ()) (.error ())
      ⟨0, 0, false, "CMC DEX"⟩ 0 none 7 [] [] rfl rfl (by norm_num) 1 ⟨1000, 1⟩).1⟩

/-- Claim C7, witness: the amended properties applied at a concrete
aggregated list with budget `0`, where the selection is empty. -/
theorem C7_selection_properties_witness :
    Wakebot.selectCandidates [⟨"base", "0xPOOL", 100, 5⟩] (fun _ => []) 0 = [] :=
  (C7_selection_properties [⟨"base", "0xPOOL", 100, 5⟩] (fun _ => []) 0).2.2.2 rfl

/-- With the GeckoTerminal fallback disabled, a `fetch_cmc_ohlcv_25h` cache
miss issues one upstream request and stores the returned value (whatever
branch produced it) under the key. -/
theorem fetchCmcOhlcv25h_miss_nofb (ttl now : ℚ) (key : Wakebot.CacheKey)
    (up : Except Unit (List Wakebot.Candle)) (gtFb : Wakebot.CmcResult)
    (nowSec : ℤ) (created : Option ℤ) (minAge : ℤ)
    (st : Wakebot.TtlCache Wakebot.CmcResult)
    (h : Wakebot.cacheFind key st = none) :
    ∃ val, Wakebot.fetchCmcOhlcv25h ttl now key up false gtFb nowSec created minAge st
      = (val, Wakebot.cacheSet now key val st, 1) := by
  unfold Wakebot.fetchCmcOhlcv25h Wakebot.cacheGet
  rw [h]
  dsimp only
  cases up with
  | error e => exact ⟨_, rfl⟩
  | ok candles =>
    dsimp only
    by_cases hc : candles.length < 2
    · rw [if_pos hc]
      exact ⟨_, rfl⟩
    · rw [if_neg hc]
      exact ⟨_, rfl⟩

/-- Claim C9, amended: starting from a cache with no entry for the key,
calling `fetch_ohlcv_49h` twice for the same `(chain, pool)` key within the
cache TTL issues exactly one upstream HTTP request — the first call issues
it, the second is served from the cache regardless of what the upstream would
return — and both calls return identical values; the same holds for
`fetch_cmc_ohlcv_25h` when the GeckoTerminal fallback is disabled (the
default configuration).  With the fallback enabled, a failed first CMC call
caches nothing under the key and a second call issues a second upstream
request (see the counterexample). -/
theorem C9_cache_single_request (ttl t0 t1 : ℚ) (key : Wakebot.CacheKey)
    (up1 up2 upc1 upc2 : Except Unit (List Wakebot.Candle))
    (gtFb : Wakebot.CmcResult) (nowSec : ℤ) (created : Option ℤ) (minAge : ℤ)
    (stG : Wakebot.TtlCache (ℚ × ℚ)) (stC : Wakebot.TtlCache Wakebot.CmcResult)
    (hmissG : Wakebot.cacheFind key stG = none)
    (hmissC : Wakebot.cacheFind key stC = none)
    (ht : t1 - t0 < ttl) :
    (Wakebot.fetchOhlcv49h ttl t0 key up1 stG).2.2 = 1 ∧
    (Wakebot.fetchOhlcv49h ttl t1 key up2
        (Wakebot.fetchOhlcv49h ttl t0 key up1 stG).2.1).2.2 = 0 ∧
    (Wakebot.fetchOhlcv49h ttl t1 key up2
        (Wakebot.fetchOhlcv49h ttl t0 key up1 stG).2.1).1
      = (Wakebot.fetchOhlcv49h ttl t0 key up1 stG).1 ∧
    (Wakebot.fetchCmcOhlcv25h ttl t0 key upc1 false gtFb nowSec created minAge stC).2.2 = 1 ∧
    (Wakebot.fetchCmcOhlcv25h ttl t1 key upc2 false gtFb nowSec created minAge
        (Wakebot.fetchCmcOhlcv25h ttl t0 key upc1 false gtFb nowSec created
          minAge stC).2.1).2.2 = 0 ∧
    (Wakebot.fetchCmcOhlcv25h ttl t1 key upc2 false gtFb nowSec created minAge
        (Wakebot.fetchCmcOhlcv25h ttl t0 key upc1 false gtFb nowSec created
          minAge stC).2.1).1
      = (Wakebot.fetchCmcOhlcv25h ttl t0 key upc1 false gtFb nowSec created
          minAge stC).1 := by
  obtain ⟨valG, hG⟩ := fetchOhlcv49h_miss ttl t0 key up1 stG hmissG
  obtain ⟨valC, hC⟩ :=
    fetchCmcOhlcv25h_miss_nofb ttl t0 key upc1 gtFb nowSec created minAge stC hmissC
  have hG2 := fetchOhlcv49h_hit ttl t1 t0 key valG up2
      (Wakebot.cacheSet t0 key valG stG) (cacheFind_cacheSet_self t0 key valG stG) ht
  have hC2 := fetchCmcOhlcv25h_hit ttl t1 t0 key valC upc2 false gtFb nowSec created
      minAge (Wakebot.cacheSet t0 key valC stC)
      (cacheFind_cacheSet_self t0 key valC stC) ht
  rw [hG, hC]
  dsimp only
  rw [hG2, hC2]
  exact ⟨rfl, rfl, rfl, rfl, rfl, rfl⟩

/-- Claim C9, witness: the amended statement at `ttl = 60`, calls at times 0
and 30 on fresh caches for both fetch functions. -/
theorem C9_cache_single_request_witness :
    Wakebot.cacheFind ("ethereum", "0xPOOL") ([] : Wakebot.TtlCache (ℚ × ℚ)) = none ∧
    Wakebot.cacheFind ("ethereum", "0xPOOL")
      ([] : Wakebot.TtlCache Wakebot.CmcResult) = none ∧
    (30 : ℚ) - 0 < 60 ∧
    (Wakebot.fetchOhlcv49h 60 0 ("ethereum", "0xPOOL") (.error ())
      ([] : Wakebot.TtlCache (ℚ × ℚ))).2.2 = 1 :=
  ⟨rfl, rfl, by norm_num,
    (C9_cache_single_request 60 0 30 ("ethereum", "0xPOOL") (.error ()) (.error ())
      (.error ()) (.error ()) ⟨0, 0, false, "CMC DEX"⟩ 0 none 7 [] []
      rfl rfl (by norm_num)).1⟩
